import Mathlib

/-!
Verification of the System Diagnostic Utility pipeline
(`system_diagnostic.py`): a shallow embedding of the
`SystemDiagnostic` class — its per-domain health checks, issue
accumulation, recommendation derivation, summary printing and report
saving — together with proofs about the embedded definitions.

Numeric values are modelled as exact rationals; `round(x, 2)` is
modelled by explicit round-half-to-even (Python's `round`), and the
OS-metric providers (psutil / platform / filesystem) are modelled as
explicit inputs, with per-call failure represented by `Except` values
corresponding to the exceptions the Python code catches.
-/

namespace SysDiag

/-- Python's `round` to an integer: round half to even (banker's rounding). -/
def roundHalfEven (x : ℚ) : ℤ :=
  let f := Rat.floor x
  let r := x - (f : ℚ)
  if r < 1/2 then f
  else if 1/2 < r then f + 1
  else if f % 2 = 0 then f else f + 1

/-- Python's `round(x, 2)`: round to 2 decimal places, half to even. -/
def round2 (x : ℚ) : ℚ := (roundHalfEven (100 * x) : ℚ) / 100

/-- Rendering of a number with Python's `f"{x:.1f}"` format (one decimal
place, rounding half to even), used inside issue/recommendation strings. -/
def fmt1 (x : ℚ) : String :=
  let n := roundHalfEven (10 * x)
  toString (n / 10) ++ "." ++ toString (n % 10)

/-- Rendering of a number with Python's `f"{x}"` (its `str`); the exact
float rendering is irrelevant to every property proved here, so it is
modelled by the rational's own rendering. -/
def fmtPy (x : ℚ) : String := toString x

/-- The threshold policy as the specification words it: `critical` iff the
percent exceeds 90, `warning` iff it exceeds 80 (but not 90), `healthy`
otherwise. Stated from the spec; each check's inline classification is
proved to agree with it. -/
def classify (p : ℚ) : String :=
  if 90 < p then "critical" else if 80 < p then "warning" else "healthy"

/-- Python dict insertion `m[k] = v`: replace in place if the key exists,
otherwise append at the end (insertion order is preserved). -/
def dictInsert {α : Type} (m : List (String × α)) (k : String) (v : α) :
    List (String × α) :=
  match m with
  | [] => [(k, v)]
  | (k₁, v₁) :: rest =>
    if k₁ = k then (k, v) :: rest else (k₁, v₁) :: dictInsert rest k v

/-! ## Disk health (`check_disk_health`) -/

/-- Result of `psutil.disk_usage(mountpoint)` (byte counts). -/
structure PartitionUsage where
  total : ℚ
  used : ℚ
  free : ℚ
deriving DecidableEq

/-- Outcome of reading one partition's usage: success, `PermissionError`,
or any other exception (carrying `str(e)`). -/
inductive DiskFetch where
  | ok (u : PartitionUsage)
  | permissionError
  | otherError (msg : String)
deriving DecidableEq

/-- One element of `psutil.disk_partitions()` together with the outcome of
its `disk_usage` call. -/
structure Partition where
  device : String
  mountpoint : String
  fstype : String
  fetch : DiskFetch
deriving DecidableEq

/-- One value of the `disk_info` dict: the fully-populated shape built on
success, or the `{mountpoint, status}` shape built by the two exception
handlers. -/
inductive DiskEntry where
  | full (mountpoint fstype : String) (total_gb used_gb free_gb percent_used : ℚ)
      (status : String)
  | brief (mountpoint status : String)
deriving DecidableEq

/-- The `status` field of a disk entry. -/
def DiskEntry.status : DiskEntry → String
  | .full _ _ _ _ _ _ s => s
  | .brief _ s => s

/-- The `mountpoint` field of a disk entry (present in both shapes). -/
def DiskEntry.mountpoint : DiskEntry → String
  | .full m _ _ _ _ _ _ => m
  | .brief m _ => m

/-- Python `info.get('percent_used', 0)`: the stored (rounded) percent for
a full entry, `0` for an exception-shaped entry. -/
def DiskEntry.percentUsedOrZero : DiskEntry → ℚ
  | .full _ _ _ _ _ p _ => p
  | .brief _ _ => 0

/-- The issue string `f"CRITICAL: {device} ({mountpoint}) is {p:.1f}% full!"`. -/
def diskCriticalMsg (device mountpoint : String) (p : ℚ) : String :=
  "CRITICAL: " ++ device ++ " (" ++ mountpoint ++ ") is " ++ fmt1 p ++ "% full!"

/-- The issue string `f"WARNING: {device} ({mountpoint}) is {p:.1f}% full"`. -/
def diskWarningMsg (device mountpoint : String) (p : ℚ) : String :=
  "WARNING: " ++ device ++ " (" ++ mountpoint ++ ") is " ++ fmt1 p ++ "% full"

/-- The body of the per-partition loop of `check_disk_health`: builds the
`disk_info` entry for one partition and the issues it appends. When the
reported total is `0`, the expression `used / total` raises
`ZeroDivisionError` ("division by zero"), which is caught by the generic
`except Exception` handler, producing the `{mountpoint, status}` shape;
`PermissionError` is caught first by its own handler. -/
def processPartition (p : Partition) : DiskEntry × List String :=
  match p.fetch with
  | .permissionError => (.brief p.mountpoint "access_denied", [])
  | .otherError msg => (.brief p.mountpoint ("error: " ++ msg), [])
  | .ok u =>
    if u.total = 0 then
      (.brief p.mountpoint "error: division by zero", [])
    else
      let total_gb := u.total / 1024 ^ 3
      let used_gb := u.used / 1024 ^ 3
      let free_gb := u.free / 1024 ^ 3
      let percent_used := u.used / u.total * 100
      if 90 < percent_used then
        (.full p.mountpoint p.fstype (round2 total_gb) (round2 used_gb)
            (round2 free_gb) (round2 percent_used) "critical",
          [diskCriticalMsg p.device p.mountpoint percent_used])
      else if 80 < percent_used then
        (.full p.mountpoint p.fstype (round2 total_gb) (round2 used_gb)
            (round2 free_gb) (round2 percent_used) "warning",
          [diskWarningMsg p.device p.mountpoint percent_used])
      else
        (.full p.mountpoint p.fstype (round2 total_gb) (round2 used_gb)
            (round2 free_gb) (round2 percent_used) "healthy", [])

/-- One iteration of the partition loop: record the entry in `disk_info`
and append the issues produced for this partition. -/
def diskFoldStep (acc : List (String × DiskEntry) × List String)
    (p : Partition) : List (String × DiskEntry) × List String :=
  (dictInsert acc.1 p.device (processPartition p).1, acc.2 ++ (processPartition p).2)

/-- The whole partition loop of `check_disk_health`: builds the `disk_info`
dict and the list of issues appended, in enumeration order. -/
def checkDiskPartitions (ps : List Partition) :
    List (String × DiskEntry) × List String :=
  ps.foldl diskFoldStep ([], [])

/-! ## Memory health (`check_memory_health`) -/

/-- Result of `psutil.virtual_memory()` (bytes, plus a percent). -/
structure VirtualMemory where
  total : ℚ
  used : ℚ
  available : ℚ
  percent : ℚ
deriving DecidableEq

/-- Result of `psutil.swap_memory()`. -/
structure SwapMemory where
  total : ℚ
  used : ℚ
  percent : ℚ
deriving DecidableEq

/-- The `memory_info` dict stored in `results['memory_health']`. -/
structure MemoryInfo where
  total_gb : ℚ
  used_gb : ℚ
  available_gb : ℚ
  percent_used : ℚ
  swap_total_gb : ℚ
  swap_used_gb : ℚ
  swap_percent : ℚ
  status : String
deriving DecidableEq

/-- The issue string `f"CRITICAL: Memory usage is {p:.1f}%!"`. -/
def memCriticalMsg (p : ℚ) : String :=
  "CRITICAL: Memory usage is " ++ fmt1 p ++ "%!"

/-- The issue string `f"WARNING: Memory usage is {p:.1f}%"`. -/
def memWarningMsg (p : ℚ) : String :=
  "WARNING: Memory usage is " ++ fmt1 p ++ "%"

/-- The issue string `f"WARNING: High swap usage ({p:.1f}%) - system may be low on RAM"`. -/
def swapWarningMsg (p : ℚ) : String :=
  "WARNING: High swap usage (" ++ fmt1 p ++ "%) - system may be low on RAM"

/-- The body of `check_memory_health` after a successful provider read:
the stored `memory_info` and the issues appended, in order (physical-memory
threshold issue first, then the swap issue). -/
def memoryCompute (m : VirtualMemory) (s : SwapMemory) :
    MemoryInfo × List String :=
  let swapPercent := if 0 < s.total then s.percent else 0
  let swapTotalGb := s.total / 1024 ^ 3
  let statusIssues :=
    if 90 < m.percent then ("critical", [memCriticalMsg m.percent])
    else if 80 < m.percent then ("warning", [memWarningMsg m.percent])
    else ("healthy", ([] : List String))
  let swapIssues :=
    if 80 < swapPercent ∧ 0 < swapTotalGb then [swapWarningMsg swapPercent]
    else []
  ({ total_gb := round2 (m.total / 1024 ^ 3)
     used_gb := round2 (m.used / 1024 ^ 3)
     available_gb := round2 (m.available / 1024 ^ 3)
     percent_used := round2 m.percent
     swap_total_gb := round2 swapTotalGb
     swap_used_gb := round2 (s.used / 1024 ^ 3)
     swap_percent := round2 swapPercent
     status := statusIssues.1 },
   statusIssues.2 ++ swapIssues)

/-! ## CPU health (`check_cpu_health`) -/

/-- Result of `psutil.cpu_freq()` when it is not `None`. -/
structure CpuFreq where
  current : ℚ
  min : ℚ
  max : ℚ
deriving DecidableEq

/-- One sensor reading from `psutil.sensors_temperatures()`; `high` and
`critical` may be `None`. -/
structure TempEntry where
  label : String
  current : ℚ
  high : Option ℚ
  critical : Option ℚ
deriving DecidableEq

/-- One value of the `cpu_info['temperatures']` dict. -/
structure TempReading where
  current : ℚ
  high : Option ℚ
  critical : Option ℚ
deriving DecidableEq

/-- Everything `check_cpu_health` reads from psutil on a successful run:
aggregate percent, logical core count, optional frequency, the per-core
sample, and the temperature-sensor call (whose failure is absorbed by the
inner bare `except`). -/
structure CpuData where
  percent : ℚ
  count : Nat
  freq : Option CpuFreq
  perCore : List ℚ
  temps : Except Unit (List (String × List TempEntry))

/-- The `cpu_info` dict stored in `results['cpu_health']`; the three
frequency keys are present only when `cpu_freq` was truthy, and the
`temperatures` key only when the sensor dict was truthy. -/
structure CpuInfo where
  usage_percent : ℚ
  cores : Nat
  current_freq_mhz : Option ℚ
  min_freq_mhz : Option ℚ
  max_freq_mhz : Option ℚ
  per_core_percent : List ℚ
  status : String
  temperatures : Option (List (String × TempReading))
deriving DecidableEq

/-- The issue string `f"CRITICAL: CPU usage is {p:.1f}%!"`. -/
def cpuCriticalMsg (p : ℚ) : String :=
  "CRITICAL: CPU usage is " ++ fmt1 p ++ "%!"

/-- The issue string `f"WARNING: CPU usage is {p:.1f}%"`. -/
def cpuWarningMsg (p : ℚ) : String :=
  "WARNING: CPU usage is " ++ fmt1 p ++ "%"

/-- The issue string about a sensor exceeding its critical threshold. -/
def tempCriticalMsg (current : ℚ) : String :=
  "CRITICAL: CPU temperature (" ++ fmtPy current ++ "°C) exceeds critical threshold!"

/-- The filter `'cpu' in name.lower() or 'core' in name.lower()`. -/
def sensorNameMatches (name : String) : Prop :=
  "cpu".data <:+: name.toLower.data ∨ "core".data <:+: name.toLower.data

instance (name : String) : Decidable (sensorNameMatches name) := by
  unfold sensorNameMatches; infer_instance

/-- Python `round(v, 2) if v else None` on an optional reading (note that
a reading of exactly `0` is falsy and becomes `None`). -/
def roundOptTruthy (o : Option ℚ) : Option ℚ :=
  match o with
  | some x => if x = 0 then none else some (round2 x)
  | none => none

/-- The truthiness test `entry.critical and entry.current > entry.critical`. -/
def tempExceedsCritical (e : TempEntry) : Prop :=
  match e.critical with
  | some c => ¬c = 0 ∧ c < e.current
  | none => False

instance (e : TempEntry) : Decidable (tempExceedsCritical e) := by
  unfold tempExceedsCritical; cases e.critical <;> infer_instance

/-- The temperature loop of `check_cpu_health`: builds the `temperatures`
dict and the critical-temperature issues, for sensors whose name contains
`cpu` or `core`. -/
def tempLoop (ts : List (String × List TempEntry)) :
    List (String × TempReading) × List String :=
  ts.foldl
    (fun acc p =>
      p.2.foldl
        (fun acc e =>
          if sensorNameMatches p.1 then
            (dictInsert acc.1 (if e.label = "" then p.1 else e.label)
                ⟨round2 e.current, roundOptTruthy e.high, roundOptTruthy e.critical⟩,
             acc.2 ++ (if tempExceedsCritical e then [tempCriticalMsg e.current] else []))
          else acc)
        acc)
    ([], [])

/-- The body of `check_cpu_health` after a successful provider read: the
stored `cpu_info` and the issues appended, in order (usage-threshold
issues first, then temperature issues). -/
def cpuCompute (d : CpuData) : CpuInfo × List String :=
  let statusIssues :=
    if 90 < d.percent then ("critical", [cpuCriticalMsg d.percent])
    else if 80 < d.percent then ("warning", [cpuWarningMsg d.percent])
    else ("healthy", ([] : List String))
  let tempPart :=
    match d.temps with
    | .error _ => (none, [])
    | .ok ts =>
      if ts.isEmpty then (none, [])
      else (some (tempLoop ts).1, (tempLoop ts).2)
  ({ usage_percent := round2 d.percent
     cores := d.count
     current_freq_mhz := d.freq.map (fun f => round2 f.current)
     min_freq_mhz := d.freq.map (fun f => round2 f.min)
     max_freq_mhz := d.freq.map (fun f => round2 f.max)
     per_core_percent := d.perCore.map round2
     status := statusIssues.1
     temperatures := tempPart.1 },
   statusIssues.2 ++ tempPart.2)

/-! ## Network health (`check_network_health`) -/

/-- One address of a network interface. -/
structure AddrInfo where
  family : String
  address : String
  netmask : Option String
deriving DecidableEq

/-- Per-interface stats from `psutil.net_if_stats()`. -/
structure NetStat where
  isup : Bool
  speed : ℤ
deriving DecidableEq

/-- Everything `check_network_health` reads on a successful run; the ping
probe is modelled by its return-code outcome (`error` covering failure or
timeout, absorbed by the bare `except`). -/
structure NetworkData where
  bytesSent : ℤ
  bytesRecv : ℤ
  packetsSent : ℤ
  packetsRecv : ℤ
  interfaces : List (String × List AddrInfo)
  stats : List (String × NetStat)
  ping : Except Unit ℤ

/-- One value of the `network_info['interfaces']` dict. -/
structure InterfaceInfo where
  addresses : List AddrInfo
  is_up : Bool
  speed_mbps : ℤ
deriving DecidableEq

/-- The `network_info` dict stored in `results['network_health']`. -/
structure NetworkInfo where
  total_bytes_sent : ℤ
  total_bytes_recv : ℤ
  total_packets_sent : ℤ
  total_packets_recv : ℤ
  interfaces : List (String × InterfaceInfo)
  localhost_connectivity : Bool
deriving DecidableEq

/-- The body of `check_network_health` after a successful provider read. -/
def networkCompute (d : NetworkData) : NetworkInfo :=
  { total_bytes_sent := d.bytesSent
    total_bytes_recv := d.bytesRecv
    total_packets_sent := d.packetsSent
    total_packets_recv := d.packetsRecv
    interfaces :=
      d.interfaces.foldl
        (fun acc p =>
          let info : InterfaceInfo :=
            match (d.stats.find? (fun q => q.1 = p.1)).map Prod.snd with
            | some st => { addresses := p.2, is_up := st.isup, speed_mbps := st.speed }
            | none => { addresses := p.2, is_up := false, speed_mbps := 0 }
          dictInsert acc p.1 info)
        []
    localhost_connectivity :=
      match d.ping with
      | .ok rc => decide (rc = 0)
      | .error _ => false }

/-! ## Process health (`check_process_health`) -/

/-- One iteration of `psutil.process_iter(...)`: either the requested info
dict, or a `NoSuchProcess`/`AccessDenied` exception (skipped silently). -/
inductive ProcFetch where
  | ok (pid : ℤ) (name : String) (cpu_percent : Option ℚ) (memory_percent : Option ℚ)
  | accessError
deriving DecidableEq

/-- One element of the `high_cpu_processes` list. -/
structure ProcCpuEntry where
  pid : ℤ
  name : String
  cpu_percent : ℚ
deriving DecidableEq

/-- One element of the `high_memory_processes` list. -/
structure ProcMemEntry where
  pid : ℤ
  name : String
  memory_percent : ℚ
deriving DecidableEq

/-- The `process_info` dict stored in `results['process_health']`. -/
structure ProcessInfo where
  total_processes : Nat
  top_cpu_processes : List ProcCpuEntry
  top_memory_processes : List ProcMemEntry
deriving DecidableEq

/-- The successfully enumerated processes (the `processes` list). -/
def okProcs (ps : List ProcFetch) : List (ℤ × String × Option ℚ × Option ℚ) :=
  ps.filterMap
    (fun p =>
      match p with
      | .ok pid n c m => some (pid, n, c, m)
      | .accessError => none)

/-- The `high_cpu_processes` candidates: the truthiness-guarded filter
`pinfo['cpu_percent'] and pinfo['cpu_percent'] > 50`, each entry storing
the rounded percent. -/
def highCpuCandidates (ps : List ProcFetch) : List ProcCpuEntry :=
  (okProcs ps).filterMap
    (fun q =>
      match q.2.2.1 with
      | some c => if ¬c = 0 ∧ 50 < c then some ⟨q.1, q.2.1, round2 c⟩ else none
      | none => none)

/-- The `high_memory_processes` candidates (`memory_percent > 10`). -/
def highMemCandidates (ps : List ProcFetch) : List ProcMemEntry :=
  (okProcs ps).filterMap
    (fun q =>
      match q.2.2.2 with
      | some m => if ¬m = 0 ∧ 10 < m then some ⟨q.1, q.2.1, round2 m⟩ else none
      | none => none)

/-- Stable insertion of an element into a descending-by-key list, placing
it before the first strictly smaller key (so earlier-enumerated elements
stay first among equal keys, as Python's stable `sort` does). -/
def insertDesc {α : Type} (key : α → ℚ) (a : α) : List α → List α
  | [] => [a]
  | b :: bs => if key b ≤ key a then a :: b :: bs else b :: insertDesc key a bs

/-- Stable descending sort by a key, modelling
`list.sort(key=..., reverse=True)`. -/
def sortDesc {α : Type} (key : α → ℚ) : List α → List α
  | [] => []
  | a :: as => insertDesc key a (sortDesc key as)

/-- The body of `check_process_health` after a successful enumeration. -/
def processCompute (ps : List ProcFetch) : ProcessInfo :=
  { total_processes := (okProcs ps).length
    top_cpu_processes :=
      (sortDesc (fun e => e.cpu_percent) (highCpuCandidates ps)).take 5
    top_memory_processes :=
      (sortDesc (fun e => e.memory_percent) (highMemCandidates ps)).take 5 }

/-! ## The report aggregate and the pipeline (`SystemDiagnostic`) -/

/-- What `check_system_info` reads from the `platform` module. -/
structure SystemInfoData where
  os : String
  os_version : String
  os_release : String
  architecture : String
  processor : String
  hostname : String
  python_version : String
deriving DecidableEq

/-- The `self.results` dict. The singleton sections start out as the empty
dict `{}` (modelled `none`) and are replaced wholesale by their check. -/
structure Report where
  timestamp : String
  system_info : List (String × String)
  disk_health : List (String × DiskEntry)
  memory_health : Option MemoryInfo
  cpu_health : Option CpuInfo
  network_health : Option NetworkInfo
  process_health : Option ProcessInfo
  issues : List String
  recommendations : List String

/-- The report as `__init__` creates it. -/
def initialReport (ts : String) : Report :=
  { timestamp := ts
    system_info := []
    disk_health := []
    memory_health := none
    cpu_health := none
    network_health := none
    process_health := none
    issues := []
    recommendations := [] }

/-- The OS-metrics providers, one per check; `Except.error` carries
`str(e)` of the exception caught by that check's top-level handler. -/
structure Provider where
  systemInfo : Except String SystemInfoData
  disk : Except String (List Partition)
  memory : Except String (VirtualMemory × SwapMemory)
  cpu : Except String CpuData
  network : Except String NetworkData
  process : Except String (List ProcFetch)
  diskErrors : Except String Unit

/-- `check_system_info`: writes `system_info` (as a dict in fixed key
order) or appends one issue on failure. -/
def check_system_info (f : Except String SystemInfoData) (r : Report) : Report :=
  match f with
  | .ok d =>
    { r with
      system_info :=
        [("os", d.os), ("os_version", d.os_version), ("os_release", d.os_release),
         ("architecture", d.architecture), ("processor", d.processor),
         ("hostname", d.hostname), ("python_version", d.python_version)] }
  | .error e =>
    { r with issues := r.issues ++ ["Error collecting system info: " ++ e] }

/-- `check_disk_health`: on a successful enumeration, runs the partition
loop (appending its issues in loop order) and stores the `disk_info` dict;
a top-level failure appends one issue and leaves `disk_health` untouched. -/
def check_disk_health (f : Except String (List Partition)) (r : Report) : Report :=
  match f with
  | .ok ps =>
    { r with
      disk_health := (checkDiskPartitions ps).1
      issues := r.issues ++ (checkDiskPartitions ps).2 }
  | .error e =>
    { r with issues := r.issues ++ ["Error checking disk health: " ++ e] }

/-- `check_memory_health`. -/
def check_memory_health (f : Except String (VirtualMemory × SwapMemory))
    (r : Report) : Report :=
  match f with
  | .ok ms =>
    { r with
      memory_health := some (memoryCompute ms.1 ms.2).1
      issues := r.issues ++ (memoryCompute ms.1 ms.2).2 }
  | .error e =>
    { r with issues := r.issues ++ ["Error checking memory: " ++ e] }

/-- `check_cpu_health`. -/
def check_cpu_health (f : Except String CpuData) (r : Report) : Report :=
  match f with
  | .ok d =>
    { r with
      cpu_health := some (cpuCompute d).1
      issues := r.issues ++ (cpuCompute d).2 }
  | .error e =>
    { r with issues := r.issues ++ ["Error checking CPU: " ++ e] }

/-- `check_network_health` (the failed ping probe is absorbed inside
`networkCompute` and never produces an issue). -/
def check_network_health (f : Except String NetworkData) (r : Report) : Report :=
  match f with
  | .ok d => { r with network_health := some (networkCompute d) }
  | .error e =>
    { r with issues := r.issues ++ ["Error checking network: " ++ e] }

/-- `check_process_health`. -/
def check_process_health (f : Except String (List ProcFetch)) (r : Report) : Report :=
  match f with
  | .ok ps => { r with process_health := some (processCompute ps) }
  | .error e =>
    { r with issues := r.issues ++ ["Error checking processes: " ++ e] }

/-- `check_disk_errors`: advisory printing only; it stores nothing and
appends an issue only when its top-level body fails (the inner
`disk_io_counters` try is absorbed). -/
def check_disk_errors (f : Except String Unit) (r : Report) : Report :=
  match f with
  | .ok _ => r
  | .error e =>
    { r with issues := r.issues ++ ["Error checking disk errors: " ++ e] }

/-! ## Recommendations (`generate_recommendations`) -/

/-- Rule 1's recommendation string,
`f"Free up space on {device} ({mountpoint}). Currently {p:.1f}% full."`. -/
def diskRecMsg (device mountpoint : String) (p : ℚ) : String :=
  "Free up space on " ++ device ++ " (" ++ mountpoint ++ "). Currently " ++
    fmt1 p ++ "% full."

/-- Rule 2's fixed memory recommendation. -/
def memRecMsg : String :=
  "High memory usage detected. Consider closing unnecessary applications or adding more RAM."

/-- Rule 3's fixed CPU recommendation. -/
def cpuRecMsg : String :=
  "High CPU usage detected. Check for resource-intensive processes or consider upgrading hardware."

/-- Rule 4's recommendation naming the top CPU process (the single quotes
around the name are written as unicode escapes). -/
def procRecMsg (name : String) : String :=
  "Process \u0027" ++ name ++ "\u0027 is using high CPU. Consider investigating or restarting it."

/-- The no-problem sentinel recommendation. -/
def normalMsg : String :=
  "System appears to be running normally. No immediate action required."

/-- `self.results['memory_health'].get('percent_used', 0)` (the stored,
rounded value; `0` when the section is still the empty dict). -/
def memPercentStored (r : Report) : ℚ :=
  match r.memory_health with
  | some m => m.percent_used
  | none => 0

/-- `self.results['cpu_health'].get('usage_percent', 0)`. -/
def cpuPercentStored (r : Report) : ℚ :=
  match r.cpu_health with
  | some c => c.usage_percent
  | none => 0

/-- `self.results['process_health'].get('top_cpu_processes', [])`. -/
def topCpuStored (r : Report) : List ProcCpuEntry :=
  match r.process_health with
  | some p => p.top_cpu_processes
  | none => []

/-- One iteration of rule 1's loop over the `disk_health` dict. -/
def diskRecStep (acc : List String) (p : String × DiskEntry) : List String :=
  if 80 < p.2.percentUsedOrZero then
    acc ++ [diskRecMsg p.1 p.2.mountpoint p.2.percentUsedOrZero]
  else acc

/-- Rule 1's loop over the `disk_health` dict: one recommendation per
entry whose stored `percent_used` exceeds 80 (every entry is a dict, and
exception-shaped entries default the percent to 0). -/
def diskRecsOf (dh : List (String × DiskEntry)) : List String :=
  dh.foldl diskRecStep []

/-- `generate_recommendations`: derives the recommendation list from the
other report fields (rules in fixed order, sentinel when none fired) and
replaces `recommendations` wholesale. -/
def generate_recommendations (r : Report) : Report :=
  let recs := diskRecsOf r.disk_health
  let recs := if 80 < memPercentStored r then recs ++ [memRecMsg] else recs
  let recs := if 80 < cpuPercentStored r then recs ++ [cpuRecMsg] else recs
  let recs :=
    match topCpuStored r with
    | [] => recs
    | t :: _ => if 80 < t.cpu_percent then recs ++ [procRecMsg t.name] else recs
  let recs := if recs.isEmpty then recs ++ [normalMsg] else recs
  { r with recommendations := recs }

/-- `run_all_diagnostics`: the seven checks in fixed order, then the
recommendation pass; every step is a total function on the report, so no
provider failure can escape the pipeline or skip a later check. -/
def run_all_diagnostics (p : Provider) (r : Report) : Report :=
  generate_recommendations
    (check_disk_errors p.diskErrors
      (check_process_health p.process
        (check_network_health p.network
          (check_cpu_health p.cpu
            (check_memory_health p.memory
              (check_disk_health p.disk
                (check_system_info p.systemInfo r)))))))

/-! ## Reporting (`print_summary`, `save_report`) -/

/-- The separator line `"=" * 60`. -/
def sep60 : String := String.mk (List.replicate 60 (Char.ofNat 61))

/-- `print_summary` as the sequence of lines it prints; it only reads the
report. -/
def print_summary (r : Report) : List String :=
  ["\n" ++ sep60, "DIAGNOSTIC SUMMARY", sep60] ++
    (if r.issues.length = 0 then ["✓ No critical issues detected"]
     else ("⚠ " ++ toString r.issues.length ++ " issue(s) detected:") ::
       r.issues.map (fun i => "  - " ++ i)) ++
    ["\n" ++ sep60]

/-- The default report filename built from the timestamp
`datetime.now().strftime("%Y%m%d_%H%M%S")`. -/
def defaultReportName (ts : String) : String :=
  "diagnostic_report_" ++ ts ++ ".json"

/-- `save_report`: chooses the explicit or timestamp-default filename and
attempts the write, whose outcome (the `open`/`json.dump` block, any
exception caught by the handler) is modelled by `writeOutcome`; returns
the path on success and `None` on failure — it never propagates the
failure. -/
def save_report (filename : Option String) (ts : String)
    (writeOutcome : String → Except String Unit) : Option String :=
  let fname :=
    match filename with
    | none => defaultReportName ts
    | some f => f
  match writeOutcome fname with
  | .ok _ => some fname
  | .error _ => none

/-! ## Concrete inputs used by witnesses and counterexamples -/

/-- A partition whose reported total capacity is 0 bytes. -/
def zeroTotalPartition : Partition :=
  { device := "/dev/loop0", mountpoint := "/snap", fstype := "squashfs"
    fetch := .ok { total := 0, used := 5, free := 0 } }

/-- A partition at 95% usage. -/
def fullPartition : Partition :=
  { device := "/dev/sda1", mountpoint := "/", fstype := "ext4"
    fetch := .ok { total := 100, used := 95, free := 5 } }

/-- A provider on which every check succeeds, every utilization metric is
well below its threshold (so no issue is appended anywhere), but one
enumerated process reports 95% CPU. -/
def healthyBusyProvider : Provider :=
  { systemInfo := .ok
      { os := "Linux", os_version := "6.1", os_release := "6.1.0"
        architecture := "x86_64", processor := "x86_64"
        hostname := "host", python_version := "3.11.2" }
    disk := .ok
      [{ device := "/dev/sda1", mountpoint := "/", fstype := "ext4"
         fetch := .ok { total := 1000, used := 100, free := 900 } }]
    memory := .ok
      ({ total := 8589934592, used := 2147483648, available := 6442450944
         percent := 25 },
       { total := 0, used := 0, percent := 0 })
    cpu := .ok
      { percent := 10, count := 4, freq := none, perCore := [10, 10, 10, 10]
        temps := .error () }
    network := .ok
      { bytesSent := 100, bytesRecv := 200, packetsSent := 3, packetsRecv := 4
        interfaces := [], stats := [], ping := .ok 0 }
    process := .ok [.ok 1 "worker" (some 95) (some 1)]
    diskErrors := .ok () }

/-- A report state produced by the pipeline itself on
`healthyBusyProvider`: its issues list is empty, yet the top-CPU-process
recommendation rule fires. -/
def busyReport : Report :=
  run_all_diagnostics healthyBusyProvider (initialReport "t")

/-- Eight enumerated processes with the CPU percentages of the
specification's truncation example. -/
def procExample : List ProcFetch :=
  [.ok 1 "p1" (some 95) none, .ok 2 "p2" (some 88) none,
   .ok 3 "p3" (some 77) none, .ok 4 "p4" (some 60) none,
   .ok 5 "p5" (some 55) none, .ok 6 "p6" (some 51) none,
   .ok 7 "p7" (some 40) none, .ok 8 "p8" (some 10) none]

/-- Concrete memory statistics: RAM at 85%, swap absent. -/
def vm85 : VirtualMemory :=
  { total := 8589934592, used := 7301444403, available := 1288490189, percent := 85 }

/-- Concrete swap statistics: present and at 85%. -/
def swap85 : SwapMemory := { total := 2147483648, used := 1825361101, percent := 85 }

/-- Concrete healthy memory statistics (25%). -/
def vm25 : VirtualMemory :=
  { total := 8589934592, used := 2147483648, available := 6442450944, percent := 25 }

/-- Concrete CPU data at 10% with no frequency or temperature readings. -/
def cpu10 : CpuData :=
  { percent := 10, count := 4, freq := none, perCore := [10, 10, 10, 10]
    temps := .error () }

/-- A partition whose usage read raises `PermissionError`. -/
def deniedPartition : Partition :=
  { device := "/dev/sdb1", mountpoint := "/mnt/usb", fstype := "ntfs"
    fetch := .permissionError }

/-- A writer for which the report write succeeds. -/
def goodWriter : String → Except String Unit := fun _ => .ok ()

/-- A writer for which the report write fails with a permission error. -/
def badWriter : String → Except String Unit :=
  fun _ => .error "Permission denied"

/-! ## Helper lemmas -/

lemma lookup_dictInsert {α : Type} (m : List (String × α)) (k d : String) (v : α) :
    List.lookup d (dictInsert m k v) =
      if d = k then some v else List.lookup d m := by
  induction m with
  | nil =>
    by_cases h : d = k
    · simp [dictInsert, List.lookup, h, beq_self_eq_true]
    · simp [dictInsert, List.lookup, h, beq_eq_false_iff_ne.mpr h]
  | cons a as ih =>
    obtain ⟨a1, a2⟩ := a
    by_cases hak : a1 = k
    · subst hak
      by_cases hdk : d = a1
      · simp [dictInsert, List.lookup, hdk, beq_self_eq_true]
      · simp [dictInsert, List.lookup, hdk, beq_eq_false_iff_ne.mpr hdk]
    · by_cases hda : d = a1
      · have hdk : ¬d = k := fun hh => hak (hda ▸ hh)
        simp [dictInsert, hak, List.lookup, hda, hdk, beq_self_eq_true]
      · simp [dictInsert, hak, List.lookup, beq_eq_false_iff_ne.mpr hda, ih]

lemma insertDesc_perm {α : Type} (key : α → ℚ) (a : α) (l : List α) :
    List.Perm (insertDesc key a l) (a :: l) := by
  induction l with
  | nil => exact List.Perm.refl _
  | cons b bs ih =>
    unfold insertDesc
    split
    · exact List.Perm.refl _
    · exact (ih.cons b).trans (List.Perm.swap a b bs)

lemma sortDesc_perm {α : Type} (key : α → ℚ) (l : List α) :
    List.Perm (sortDesc key l) l := by
  induction l with
  | nil => exact List.Perm.refl _
  | cons a as ih => exact (insertDesc_perm key a (sortDesc key as)).trans (ih.cons a)

lemma insertDesc_sorted {α : Type} (key : α → ℚ) (a : α) (l : List α)
    (h : List.Sorted (fun x y => key y ≤ key x) l) :
    List.Sorted (fun x y => key y ≤ key x) (insertDesc key a l) := by
  induction l with
  | nil => simp [insertDesc]
  | cons b bs ih =>
    rw [List.sorted_cons] at h
    unfold insertDesc
    split
    · rename_i hba
      rw [List.sorted_cons]
      refine ⟨fun c hc => ?_, List.sorted_cons.mpr h⟩
      rcases List.mem_cons.mp hc with hcb | hcbs
      · rw [hcb]; exact hba
      · exact le_trans (h.1 c hcbs) hba
    · rename_i hba
      rw [List.sorted_cons]
      refine ⟨fun c hc => ?_, ih h.2⟩
      rcases List.mem_cons.mp ((insertDesc_perm key a bs).mem_iff.mp hc) with hca | hcbs
      · rw [hca]; exact le_of_lt (lt_of_not_le hba)
      · exact h.1 c hcbs

lemma sortDesc_sorted {α : Type} (key : α → ℚ) (l : List α) :
    List.Sorted (fun x y => key y ≤ key x) (sortDesc key l) := by
  induction l with
  | nil => simp [sortDesc]
  | cons a as ih => exact insertDesc_sorted key a (sortDesc key as) ih

lemma diskFold_snd (ps : List Partition) (m : List (String × DiskEntry))
    (i : List String) :
    (ps.foldl diskFoldStep (m, i)).2 = i ++ (ps.foldl diskFoldStep ([], [])).2 := by
  induction ps generalizing m i with
  | nil => simp
  | cons p ps ih =>
    simp only [List.foldl_cons, diskFoldStep]
    rw [ih, ih (dictInsert [] p.device (processPartition p).1)
      ([] ++ (processPartition p).2)]
    simp

lemma diskFold_lookup_fresh (ps : List Partition) (d : String)
    (h : d ∉ ps.map (fun q => q.device)) (m : List (String × DiskEntry))
    (i : List String) :
    List.lookup d (ps.foldl diskFoldStep (m, i)).1 = List.lookup d m := by
  induction ps generalizing m i with
  | nil => rfl
  | cons p ps ih =>
    simp only [List.map_cons, List.mem_cons, not_or] at h
    simp only [List.foldl_cons, diskFoldStep]
    rw [ih h.2, lookup_dictInsert, if_neg h.1]

lemma diskFold_lookup_congr (ps : List Partition) (d : String)
    (m₁ m₂ : List (String × DiskEntry)) (i₁ i₂ : List String)
    (h : List.lookup d m₁ = List.lookup d m₂) :
    List.lookup d (ps.foldl diskFoldStep (m₁, i₁)).1 =
      List.lookup d (ps.foldl diskFoldStep (m₂, i₂)).1 := by
  induction ps generalizing m₁ m₂ i₁ i₂ with
  | nil => exact h
  | cons p ps ih =>
    simp only [List.foldl_cons, diskFoldStep]
    exact ih _ _ _ _ (by rw [lookup_dictInsert, lookup_dictInsert, h])

lemma checkDiskPartitions_silent (pre post : List Partition) (p : Partition)
    (e : DiskEntry) (hp : processPartition p = (e, []))
    (hfresh : p.device ∉ (pre ++ post).map (fun q => q.device)) :
    List.lookup p.device (checkDiskPartitions (pre ++ p :: post)).1 = some e ∧
    (checkDiskPartitions (pre ++ p :: post)).2 =
      (checkDiskPartitions (pre ++ post)).2 ∧
    ∀ d, ¬d = p.device →
      List.lookup d (checkDiskPartitions (pre ++ p :: post)).1 =
        List.lookup d (checkDiskPartitions (pre ++ post)).1 := by
  simp only [List.map_append, List.mem_append, not_or] at hfresh
  unfold checkDiskPartitions
  rw [List.foldl_append, List.foldl_append, List.foldl_cons]
  have hstep : diskFoldStep (pre.foldl diskFoldStep ([], [])) p =
      (dictInsert (pre.foldl diskFoldStep ([], [])).1 p.device e,
       (pre.foldl diskFoldStep ([], [])).2) := by
    simp [diskFoldStep, hp]
  rw [hstep]
  refine ⟨?_, ?_, ?_⟩
  · rw [diskFold_lookup_fresh post p.device hfresh.2, lookup_dictInsert, if_pos rfl]
  · have hL : (post.foldl diskFoldStep
        (dictInsert (pre.foldl diskFoldStep ([], [])).1 p.device e,
         (pre.foldl diskFoldStep ([], [])).2)).2 =
      (pre.foldl diskFoldStep ([], [])).2 ++ (post.foldl diskFoldStep ([], [])).2 :=
      diskFold_snd post _ _
    have hR : (post.foldl diskFoldStep (pre.foldl diskFoldStep ([], []))).2 =
      (pre.foldl diskFoldStep ([], [])).2 ++ (post.foldl diskFoldStep ([], [])).2 :=
      diskFold_snd post _ _
    rw [hL, hR]
  · intro d hd
    exact diskFold_lookup_congr post d _ _ _ _
      (by rw [lookup_dictInsert, if_neg hd])

lemma diskRecsOf_nil_of_le (dh : List (String × DiskEntry))
    (h : ∀ q ∈ dh, q.2.percentUsedOrZero ≤ 80) : diskRecsOf dh = [] := by
  unfold diskRecsOf
  induction dh with
  | nil => rfl
  | cons q dh ih =>
    rw [List.foldl_cons,
      show diskRecStep [] q = [] from
        if_neg (not_lt.mpr (h q (List.mem_cons_self q dh)))]
    exact ih fun x hx => h x (List.mem_cons_of_mem q hx)

lemma mem_highCpuCandidates {ps : List ProcFetch} {e : ProcCpuEntry}
    (he : e ∈ highCpuCandidates ps) :
    ∃ pid name c mm, ProcFetch.ok pid name (some c) mm ∈ ps ∧ 50 < c ∧
      e = ⟨pid, name, round2 c⟩ := by
  unfold highCpuCandidates okProcs at he
  rw [List.mem_filterMap] at he
  obtain ⟨q, hq, hg⟩ := he
  rw [List.mem_filterMap] at hq
  obtain ⟨x, hx, hfx⟩ := hq
  cases x with
  | accessError => simp at hfx
  | ok pid n c mm =>
    simp only [Option.some.injEq] at hfx
    subst hfx
    cases c with
    | none => simp at hg
    | some cv =>
      by_cases hc : ¬cv = 0 ∧ 50 < cv
      · rw [show (match (some cv : Option ℚ) with
            | some c => if ¬c = 0 ∧ 50 < c then
                some (⟨(pid, n, some cv, mm).1, (pid, n, some cv, mm).2.1,
                  round2 c⟩ : ProcCpuEntry) else none
            | none => none) = some ⟨pid, n, round2 cv⟩ from by
              simp [hc]] at hg
        exact ⟨pid, n, cv, mm, hx, hc.2, (Option.some.inj hg).symm⟩
      · rw [show (match (some cv : Option ℚ) with
            | some c => if ¬c = 0 ∧ 50 < c then
                some (⟨(pid, n, some cv, mm).1, (pid, n, some cv, mm).2.1,
                  round2 c⟩ : ProcCpuEntry) else none
            | none => none) = none from by simp [hc]] at hg
        exact absurd hg (by simp)

lemma mem_highMemCandidates {ps : List ProcFetch} {e : ProcMemEntry}
    (he : e ∈ highMemCandidates ps) :
    ∃ pid name c mm, ProcFetch.ok pid name c (some mm) ∈ ps ∧ 10 < mm ∧
      e = ⟨pid, name, round2 mm⟩ := by
  unfold highMemCandidates okProcs at he
  rw [List.mem_filterMap] at he
  obtain ⟨q, hq, hg⟩ := he
  rw [List.mem_filterMap] at hq
  obtain ⟨x, hx, hfx⟩ := hq
  cases x with
  | accessError => simp at hfx
  | ok pid n c mm =>
    simp only [Option.some.injEq] at hfx
    subst hfx
    cases mm with
    | none => simp at hg
    | some mv =>
      by_cases hc : ¬mv = 0 ∧ 10 < mv
      · rw [show (match (some mv : Option ℚ) with
            | some m => if ¬m = 0 ∧ 10 < m then
                some (⟨(pid, n, c, some mv).1, (pid, n, c, some mv).2.1,
                  round2 m⟩ : ProcMemEntry) else none
            | none => none) = some ⟨pid, n, round2 mv⟩ from by
              simp [hc]] at hg
        exact ⟨pid, n, c, mv, hx, hc.2, (Option.some.inj hg).symm⟩
      · rw [show (match (some mv : Option ℚ) with
            | some m => if ¬m = 0 ∧ 10 < m then
                some (⟨(pid, n, c, some mv).1, (pid, n, c, some mv).2.1,
                  round2 m⟩ : ProcMemEntry) else none
            | none => none) = none from by simp [hc]] at hg
        exact absurd hg (by simp)

lemma memCriticalMsg_ne_swapWarningMsg (a b : ℚ) :
    ¬memCriticalMsg a = swapWarningMsg b := by
  intro h
  have h2 : (some 'C' : Option Char) = some 'W' :=
    congrArg (fun s => s.data.get? 0) h
  exact absurd (Option.some.inj h2) (by decide)

lemma memWarningMsg_ne_swapWarningMsg (a b : ℚ) :
    ¬memWarningMsg a = swapWarningMsg b := by
  intro h
  have h2 : (some 'M' : Option Char) = some 'H' :=
    congrArg (fun s => s.data.get? 9) h
  exact absurd (Option.some.inj h2) (by decide)

lemma round2_eq_80 (x : ℚ) (hlo : 80 < x) (hhi : x < 16001 / 200) :
    round2 x = 80 := by
  have hfl : Rat.floor (100 * x) = 8000 := by
    show ⌊(100 * x : ℚ)⌋ = 8000
    rw [Int.floor_eq_iff]
    constructor
    · push_cast; linarith
    · push_cast; linarith
  simp only [round2, roundHalfEven, hfl]
  rw [if_pos (show 100 * x - ((8000 : ℤ) : ℚ) < 1 / 2 by push_cast; linarith)]
  norm_num

/-! ## Claim theorems -/

/-- C1: in every domain check (disk, memory, CPU) the status classification
of a percent value `p` is `critical` iff `p > 90`, `warning` iff
`80 < p ≤ 90` and `healthy` otherwise; in particular `p = 80` is `healthy`
and `p = 90` is `warning`. Each check's inline `if/elif` status assignment
agrees with the `classify` policy. -/
theorem C1_threshold_policy (q : ℚ) (p : Partition) (u : PartitionUsage)
    (m : VirtualMemory) (s : SwapMemory) (d : CpuData) :
    (classify q = "critical" ↔ 90 < q) ∧
    (classify q = "warning" ↔ 80 < q ∧ q ≤ 90) ∧
    (classify q = "healthy" ↔ q ≤ 80) ∧
    classify 80 = "healthy" ∧
    classify 90 = "warning" ∧
    (p.fetch = .ok u → ¬u.total = 0 →
      (processPartition p).1.status = classify (u.used / u.total * 100)) ∧
    (memoryCompute m s).1.status = classify m.percent ∧
    (cpuCompute d).1.status = classify d.percent := by
  refine ⟨?_, ?_, ?_, by decide, by decide, ?_, ?_, ?_⟩
  · unfold classify
    split_ifs with h1 h2 <;> simp [h1]
  · unfold classify
    split_ifs with h1 h2
    · simp [show ¬q ≤ 90 from not_le.mpr h1]
    · simp [h2, not_lt.mp h1]
    · simp [h2]
  · unfold classify
    split_ifs with h1 h2
    · simp [show ¬q ≤ 80 from not_le.mpr (lt_trans (by norm_num) h1)]
    · simp [show ¬q ≤ 80 from not_le.mpr h2]
    · simp [not_lt.mp h2]
  · intro hf h0
    simp only [processPartition, hf]
    rw [if_neg h0]
    unfold classify
    split_ifs <;> simp [DiskEntry.status]
  · simp only [memoryCompute, classify]
    split_ifs <;> rfl
  · simp only [cpuCompute, classify]
    split_ifs <;> rfl

/-- Witness for C1 at concrete inputs: a 95%-used partition is `critical`,
memory at 85% is `warning`, CPU at 10% is `healthy`. -/
theorem C1_threshold_policy_witness :
    (processPartition fullPartition).1.status = "critical" ∧
    (memoryCompute vm85 swap85).1.status = "warning" ∧
    (cpuCompute cpu10).1.status = "healthy" := by
  obtain ⟨-, -, -, -, -, hdisk, hmem, hcpu⟩ :=
    C1_threshold_policy 0 fullPartition ⟨100, 95, 5⟩ vm85 swap85 cpu10
  refine ⟨?_, ?_, ?_⟩
  · rw [hdisk rfl (by norm_num)]
    exact of_decide_eq_true (by with_unfolding_all rfl)
  · rw [hmem]
    exact of_decide_eq_true (by with_unfolding_all rfl)
  · rw [hcpu]
    exact of_decide_eq_true (by with_unfolding_all rfl)

/-- C2 counterexample: a partition whose reported total is 0 is NOT given
percent 0 and status `healthy`; the `used / total` division raises
`ZeroDivisionError`, the generic per-partition handler catches it, and the
entry's status is `error: division by zero`. -/
theorem C2_counterexample :
    (processPartition zeroTotalPartition).1.status = "error: division by zero" ∧
    ¬(processPartition zeroTotalPartition).1.status = "healthy" := by
  decide

/-- C2 (amended): for every enumerated partition whose reported total is 0,
the per-partition division fault is caught by the generic handler: the
partition's entry gets status `error: division by zero` (no percent is
stored), no issue string is appended, and the enumeration of the remaining
partitions proceeds as if the failing partition were absent. -/
theorem C2_zero_total_amended (pre post : List Partition) (p : Partition)
    (u : PartitionUsage) (hu : p.fetch = .ok u) (h0 : u.total = 0)
    (hfresh : p.device ∉ (pre ++ post).map (fun q => q.device)) :
    List.lookup p.device (checkDiskPartitions (pre ++ p :: post)).1 =
      some (.brief p.mountpoint "error: division by zero") ∧
    (checkDiskPartitions (pre ++ p :: post)).2 =
      (checkDiskPartitions (pre ++ post)).2 ∧
    ∀ d, ¬d = p.device →
      List.lookup d (checkDiskPartitions (pre ++ p :: post)).1 =
        List.lookup d (checkDiskPartitions (pre ++ post)).1 :=
  checkDiskPartitions_silent pre post p _ (by simp [processPartition, hu, h0]) hfresh

/-- Witness for the amended C2: the zero-total partition followed by a
healthy one. -/
theorem C2_zero_total_amended_witness :
    List.lookup "/dev/loop0" (checkDiskPartitions [zeroTotalPartition, fullPartition]).1 =
      some (.brief "/snap" "error: division by zero") ∧
    (checkDiskPartitions [zeroTotalPartition, fullPartition]).2 =
      (checkDiskPartitions [fullPartition]).2 := by
  obtain ⟨h1, h2, -⟩ :=
    C2_zero_total_amended [] [fullPartition] zeroTotalPartition ⟨0, 5, 0⟩ rfl rfl
      (by decide)
  exact ⟨h1, h2⟩

/-- C7: a permission failure while reading one partition's usage yields
status `access_denied` for that device only, appends no issue string, and
does not stop the enumeration: the remaining partitions' entries and the
appended issues are exactly those produced with the failing partition
absent. -/
theorem C7_permission_isolated (pre post : List Partition) (p : Partition)
    (hp : p.fetch = .permissionError)
    (hfresh : p.device ∉ (pre ++ post).map (fun q => q.device)) :
    (processPartition p).2 = [] ∧
    List.lookup p.device (checkDiskPartitions (pre ++ p :: post)).1 =
      some (.brief p.mountpoint "access_denied") ∧
    (checkDiskPartitions (pre ++ p :: post)).2 =
      (checkDiskPartitions (pre ++ post)).2 ∧
    ∀ d, ¬d = p.device →
      List.lookup d (checkDiskPartitions (pre ++ p :: post)).1 =
        List.lookup d (checkDiskPartitions (pre ++ post)).1 := by
  have hpp : processPartition p = (.brief p.mountpoint "access_denied", []) := by
    simp [processPartition, hp]
  obtain ⟨h1, h2, h3⟩ := checkDiskPartitions_silent pre post p _ hpp hfresh
  exact ⟨by rw [hpp], h1, h2, h3⟩

/-- Witness for C7: a healthy partition followed by an access-denied one. -/
theorem C7_permission_isolated_witness :
    List.lookup "/dev/sdb1" (checkDiskPartitions [fullPartition, deniedPartition]).1 =
      some (.brief "/mnt/usb" "access_denied") ∧
    (checkDiskPartitions [fullPartition, deniedPartition]).2 =
      (checkDiskPartitions [fullPartition]).2 := by
  obtain ⟨-, h1, h2, -⟩ :=
    C7_permission_isolated [fullPartition] [] deniedPartition rfl (by decide)
  exact ⟨h1, h2⟩

/-- C3 counterexample: a report state produced by the pipeline itself
(`busyReport`, from a provider on which every check succeeds and no
threshold fires, but one process reports 95% CPU) has an empty issues
list, yet `generate_recommendations` does not produce the sole
system-normal sentinel: the top-CPU-process rule reads `process_health`,
which contributes no issue during collection. -/
theorem C3_counterexample :
    busyReport.issues = [] ∧
    ¬(generate_recommendations busyReport).recommendations = [normalMsg] :=
  of_decide_eq_true (by with_unfolding_all rfl)

/-- C3 (amended): for every report state on which no recommendation rule
fires (every disk entry's stored percent is at most 80, stored memory and
CPU percents are at most 80, and the leading top-CPU process, if any, is
at most 80), `generate_recommendations` produces exactly the system-normal
sentinel; and `print_summary` on any state with an empty issues list emits
the no-issues-detected output. -/
theorem C3_no_rule_amended (r : Report)
    (hd : ∀ q ∈ r.disk_health, q.2.percentUsedOrZero ≤ 80)
    (hm : memPercentStored r ≤ 80)
    (hc : cpuPercentStored r ≤ 80)
    (hp : ∀ t ts, topCpuStored r = t :: ts → t.cpu_percent ≤ 80) :
    (generate_recommendations r).recommendations = [normalMsg] ∧
    (r.issues = [] →
      print_summary r =
        ["\n" ++ sep60, "DIAGNOSTIC SUMMARY", sep60,
         "✓ No critical issues detected", "\n" ++ sep60]) := by
  constructor
  · simp only [generate_recommendations]
    rw [diskRecsOf_nil_of_le r.disk_health hd,
      if_neg (not_lt.mpr hm), if_neg (not_lt.mpr hc)]
    cases htc : topCpuStored r with
    | nil => simp
    | cons t ts =>
      have hle := not_lt.mpr (hp t ts htc)
      simp [hle]
  · intro hiss
    simp [print_summary, hiss]

/-- Witness for the amended C3 at the freshly initialized report. -/
theorem C3_no_rule_amended_witness :
    (generate_recommendations (initialReport "w")).recommendations = [normalMsg] ∧
    print_summary (initialReport "w") =
      ["\n" ++ sep60, "DIAGNOSTIC SUMMARY", sep60,
       "✓ No critical issues detected", "\n" ++ sep60] := by
  obtain ⟨h1, h2⟩ := C3_no_rule_amended (initialReport "w")
    (by simp [initialReport])
    (by norm_num [memPercentStored, initialReport])
    (by norm_num [cpuPercentStored, initialReport])
    (by intro t ts h; simp [topCpuStored, initialReport] at h)
  exact ⟨h1, h2 rfl⟩

/-- C6: whenever swap total is positive and swap percent exceeds 80,
`check_memory_health` appends exactly one swap-pressure warning issue, and
it does so independently of the physical-memory status — in particular,
when physical memory is healthy the appended issues are exactly the single
swap warning. -/
theorem C6_swap_pressure (m : VirtualMemory) (s : SwapMemory)
    (h1 : 0 < s.total) (h2 : 80 < s.percent) :
    (memoryCompute m s).2.count (swapWarningMsg s.percent) = 1 ∧
    (m.percent ≤ 80 →
      (memoryCompute m s).1.status = "healthy" ∧
      (memoryCompute m s).2 = [swapWarningMsg s.percent]) := by
  have hgb : (0 : ℚ) < s.total / 1024 ^ 3 := div_pos h1 (by norm_num)
  have hswap : (if 0 < s.total then s.percent else 0) = s.percent := if_pos h1
  simp only [memoryCompute, hswap]
  rw [if_pos (⟨h2, hgb⟩ : 80 < s.percent ∧ (0 : ℚ) < s.total / 1024 ^ 3)]
  constructor
  · by_cases hcr : 90 < m.percent
    · rw [if_pos hcr]
      have hne : ¬swapWarningMsg s.percent = memCriticalMsg m.percent :=
        fun hh => memCriticalMsg_ne_swapWarningMsg m.percent s.percent hh.symm
      simp [List.count_cons, List.count_nil, beq_iff_eq, hne]
    · rw [if_neg hcr]
      by_cases hw : 80 < m.percent
      · rw [if_pos hw]
        have hne : ¬swapWarningMsg s.percent = memWarningMsg m.percent :=
          fun hh => memWarningMsg_ne_swapWarningMsg m.percent s.percent hh.symm
        simp [List.count_cons, List.count_nil, beq_iff_eq, hne]
      · rw [if_neg hw]
        simp [List.count_cons, List.count_nil, beq_iff_eq]
  · intro hm
    have hcr : ¬90 < m.percent := not_lt.mpr (le_trans hm (by norm_num))
    have hw : ¬80 < m.percent := not_lt.mpr hm
    rw [if_neg hcr, if_neg hw]
    exact ⟨rfl, rfl⟩

/-- Witness for C6: healthy RAM at 25% with swap at 85% yields the single
swap-pressure warning and a healthy status. -/
theorem C6_swap_pressure_witness :
    (memoryCompute vm25 swap85).2.count (swapWarningMsg 85) = 1 ∧
    (memoryCompute vm25 swap85).1.status = "healthy" ∧
    (memoryCompute vm25 swap85).2 = [swapWarningMsg 85] := by
  obtain ⟨h1, h2⟩ :=
    C6_swap_pressure vm25 swap85 (by norm_num [swap85]) (by norm_num [swap85])
  obtain ⟨h3, h4⟩ := h2 (by norm_num [vm25])
  exact ⟨h1, h3, h4⟩

/-- C4: for every combination of provider outcomes, `run_all_diagnostics`
equals the recommendation pass applied to a report in which each of the
seven sections holds exactly what its own check computes standalone (so no
check's failure affects any other section or prevents any later check),
with the issues accumulated in the fixed check order
system info, disk, memory, cpu, network, process, disk errors; being a
total function of the provider, the pipeline never raises past its
boundary. -/
theorem C4_run_all_isolation (p : Provider) (ts : String) :
    run_all_diagnostics p (initialReport ts) =
      generate_recommendations
        { timestamp := ts
          system_info := (check_system_info p.systemInfo (initialReport ts)).system_info
          disk_health := (check_disk_health p.disk (initialReport ts)).disk_health
          memory_health := (check_memory_health p.memory (initialReport ts)).memory_health
          cpu_health := (check_cpu_health p.cpu (initialReport ts)).cpu_health
          network_health := (check_network_health p.network (initialReport ts)).network_health
          process_health := (check_process_health p.process (initialReport ts)).process_health
          issues :=
            (check_system_info p.systemInfo (initialReport ts)).issues ++
            (check_disk_health p.disk (initialReport ts)).issues ++
            (check_memory_health p.memory (initialReport ts)).issues ++
            (check_cpu_health p.cpu (initialReport ts)).issues ++
            (check_network_health p.network (initialReport ts)).issues ++
            (check_process_health p.process (initialReport ts)).issues ++
            (check_disk_errors p.diskErrors (initialReport ts)).issues
          recommendations := [] } := by
  obtain ⟨f1, f2, f3, f4, f5, f6, f7⟩ := p
  unfold run_all_diagnostics
  congr 1
  cases f1 <;> cases f2 <;> cases f3 <;> cases f4 <;> cases f5 <;> cases f6 <;>
    cases f7 <;>
    simp [check_system_info, check_disk_health, check_memory_health,
      check_cpu_health, check_network_health, check_process_health,
      check_disk_errors, initialReport]

/-- C5: the top-CPU list equals the CPU-filtered candidates sorted
descending by CPU percent and truncated to at most 5, every element comes
from an enumerated process with CPU percent above 50, `total_processes`
counts all successfully enumerated processes regardless of the filters,
the analogous facts hold for the memory list (threshold 10), and on the
concrete CPU sample [95, 88, 77, 60, 55, 51, 40, 10] the top list is
[95, 88, 77, 60, 55]. -/
theorem C5_top_processes (ps : List ProcFetch) :
    (processCompute ps).total_processes = (okProcs ps).length ∧
    (processCompute ps).top_cpu_processes =
      (sortDesc (fun e => e.cpu_percent) (highCpuCandidates ps)).take 5 ∧
    List.Perm (sortDesc (fun e => e.cpu_percent) (highCpuCandidates ps))
      (highCpuCandidates ps) ∧
    (processCompute ps).top_cpu_processes.length ≤ 5 ∧
    List.Sorted (fun a b => b.cpu_percent ≤ a.cpu_percent)
      (processCompute ps).top_cpu_processes ∧
    (∀ e ∈ (processCompute ps).top_cpu_processes,
      ∃ pid name c mm, ProcFetch.ok pid name (some c) mm ∈ ps ∧ 50 < c ∧
        e = ⟨pid, name, round2 c⟩) ∧
    (processCompute ps).top_memory_processes =
      (sortDesc (fun e => e.memory_percent) (highMemCandidates ps)).take 5 ∧
    (processCompute ps).top_memory_processes.length ≤ 5 ∧
    List.Sorted (fun a b => b.memory_percent ≤ a.memory_percent)
      (processCompute ps).top_memory_processes ∧
    (∀ e ∈ (processCompute ps).top_memory_processes,
      ∃ pid name c mm, ProcFetch.ok pid name c (some mm) ∈ ps ∧ 10 < mm ∧
        e = ⟨pid, name, round2 mm⟩) ∧
    ((processCompute procExample).top_cpu_processes.map (fun e => e.cpu_percent) =
      [95, 88, 77, 60, 55] ∧
     (processCompute procExample).total_processes = 8) := by
  refine ⟨rfl, rfl, sortDesc_perm _ _, ?_, ?_, ?_, rfl, ?_, ?_, ?_,
    of_decide_eq_true (by with_unfolding_all rfl)⟩
  · show ((sortDesc (fun e : ProcCpuEntry => e.cpu_percent)
        (highCpuCandidates ps)).take 5).length ≤ 5
    exact List.length_take_le 5 _
  · show List.Sorted (fun a b => b.cpu_percent ≤ a.cpu_percent)
      ((sortDesc (fun e : ProcCpuEntry => e.cpu_percent)
        (highCpuCandidates ps)).take 5)
    exact List.Pairwise.sublist (List.take_sublist 5 _)
      (sortDesc_sorted (fun e : ProcCpuEntry => e.cpu_percent)
        (highCpuCandidates ps))
  · intro e he
    have he2 : e ∈ (sortDesc (fun e : ProcCpuEntry => e.cpu_percent)
        (highCpuCandidates ps)).take 5 := he
    exact mem_highCpuCandidates
      ((sortDesc_perm (fun e : ProcCpuEntry => e.cpu_percent)
        (highCpuCandidates ps)).mem_iff.mp (List.mem_of_mem_take he2))
  · show ((sortDesc (fun e : ProcMemEntry => e.memory_percent)
        (highMemCandidates ps)).take 5).length ≤ 5
    exact List.length_take_le 5 _
  · show List.Sorted (fun a b => b.memory_percent ≤ a.memory_percent)
      ((sortDesc (fun e : ProcMemEntry => e.memory_percent)
        (highMemCandidates ps)).take 5)
    exact List.Pairwise.sublist (List.take_sublist 5 _)
      (sortDesc_sorted (fun e : ProcMemEntry => e.memory_percent)
        (highMemCandidates ps))
  · intro e he
    have he2 : e ∈ (sortDesc (fun e : ProcMemEntry => e.memory_percent)
        (highMemCandidates ps)).take 5 := he
    exact mem_highMemCandidates
      ((sortDesc_perm (fun e : ProcMemEntry => e.memory_percent)
        (highMemCandidates ps)).mem_iff.mp (List.mem_of_mem_take he2))

/-- Witness for C5 on the concrete eight-process sample, including an
instantiation of the membership clause at the top entry. -/
theorem C5_top_processes_witness :
    (processCompute procExample).top_cpu_processes.map (fun e => e.cpu_percent) =
      [95, 88, 77, 60, 55] ∧
    (processCompute procExample).total_processes = 8 ∧
    (∃ pid name c mm, ProcFetch.ok pid name (some c) mm ∈ procExample ∧ 50 < c ∧
      (⟨1, "p1", 95⟩ : ProcCpuEntry) = ⟨pid, name, round2 c⟩) := by
  obtain ⟨-, -, -, -, -, hmemb, -, -, -, -, hconc⟩ := C5_top_processes procExample
  refine ⟨hconc.1, hconc.2, hmemb ⟨1, "p1", 95⟩ ?_⟩
  exact of_decide_eq_true (by with_unfolding_all rfl)

/-- C8: `generate_recommendations` is a deterministic, idempotent pure
derivation from the other report fields: applying it twice equals applying
it once, the previous recommendations list is irrelevant (wholesale
replacement), the produced list is the concatenation of the rule outputs
in fixed order (disk, memory, CPU, top process, then the sentinel exactly
when nothing fired), and every other field is left unchanged. -/
theorem C8_recommendations_pure (r : Report) (xs : List String) :
    generate_recommendations (generate_recommendations r) =
      generate_recommendations r ∧
    generate_recommendations { r with recommendations := xs } =
      generate_recommendations r ∧
    (generate_recommendations r).recommendations =
      (if (diskRecsOf r.disk_health ++
            (if 80 < memPercentStored r then [memRecMsg] else []) ++
            (if 80 < cpuPercentStored r then [cpuRecMsg] else []) ++
            (match topCpuStored r with
             | [] => []
             | t :: _ =>
               if 80 < t.cpu_percent then [procRecMsg t.name] else [])).isEmpty then
        [normalMsg]
      else
        diskRecsOf r.disk_health ++
          (if 80 < memPercentStored r then [memRecMsg] else []) ++
          (if 80 < cpuPercentStored r then [cpuRecMsg] else []) ++
          (match topCpuStored r with
           | [] => []
           | t :: _ =>
             if 80 < t.cpu_percent then [procRecMsg t.name] else [])) ∧
    (generate_recommendations r).timestamp = r.timestamp ∧
    (generate_recommendations r).system_info = r.system_info ∧
    (generate_recommendations r).disk_health = r.disk_health ∧
    (generate_recommendations r).memory_health = r.memory_health ∧
    (generate_recommendations r).cpu_health = r.cpu_health ∧
    (generate_recommendations r).network_health = r.network_health ∧
    (generate_recommendations r).process_health = r.process_health ∧
    (generate_recommendations r).issues = r.issues := by
  refine ⟨rfl, rfl, ?_, rfl, rfl, rfl, rfl, rfl, rfl, rfl, rfl⟩
  simp only [generate_recommendations]
  cases htc : topCpuStored r with
  | nil =>
    by_cases h1 : 80 < memPercentStored r <;>
      by_cases h2 : 80 < cpuPercentStored r <;>
      simp [htc, h1, h2, List.append_assoc] <;>
      by_cases hd0 : diskRecsOf r.disk_health = [] <;>
      simp [hd0]
  | cons t ts =>
    by_cases h1 : 80 < memPercentStored r <;>
      by_cases h2 : 80 < cpuPercentStored r <;>
      by_cases h3 : 80 < t.cpu_percent <;>
      simp [htc, h1, h2, h3, List.append_assoc] <;>
      by_cases hd0 : diskRecsOf r.disk_health = [] <;>
      simp [hd0]

/-- C9: `save_report` returns the path written on success and `None` when
the write cannot complete (the failure never propagates past the caller,
the function being total on the write outcome); with no filename given the
path is the timestamped default `diagnostic_report_<ts>.json`. -/
theorem C9_save_report (ts f : String) (w : String → Except String Unit) :
    (∀ u, w f = .ok u → save_report (some f) ts w = some f) ∧
    (∀ e, w f = .error e → save_report (some f) ts w = none) ∧
    (∀ u, w (defaultReportName ts) = .ok u →
      save_report none ts w = some (defaultReportName ts)) ∧
    (∀ e, w (defaultReportName ts) = .error e → save_report none ts w = none) ∧
    defaultReportName ts = "diagnostic_report_" ++ ts ++ ".json" := by
  refine ⟨?_, ?_, ?_, ?_, rfl⟩
  · intro u hu; simp [save_report, hu]
  · intro e he; simp [save_report, he]
  · intro u hu; simp [save_report, hu]
  · intro e he; simp [save_report, he]

/-- Witness for C9: a succeeding write returns the path, a failing write
returns `None`, and the default filename follows the timestamped pattern. -/
theorem C9_save_report_witness :
    save_report (some "report.json") "20250101_120000" goodWriter =
      some "report.json" ∧
    save_report (some "report.json") "20250101_120000" badWriter = none ∧
    save_report none "20250101_120000" goodWriter =
      some "diagnostic_report_20250101_120000.json" := by
  obtain ⟨hok, -, hdok, -, -⟩ :=
    C9_save_report "20250101_120000" "report.json" goodWriter
  obtain ⟨-, herr, -, -, -⟩ :=
    C9_save_report "20250101_120000" "report.json" badWriter
  refine ⟨hok () rfl, herr "Permission denied" rfl, ?_⟩
  rw [hdok () rfl]
  rfl

/-- C10: `check_disk_health` classifies (and words its issue string) with
the raw usage percent but stores the percent rounded to two decimals,
while recommendation rule 1 reads the stored value; hence a partition with
raw percent strictly between 80 and 80.005 gets a WARNING issue during
collection, a stored `percent_used` of exactly 80, and no disk
recommendation from `generate_recommendations`. -/
theorem C10_rounded_gap (device mp fs : String) (total used free : ℚ)
    (h0 : ¬total = 0) (h1 : 80 < used / total * 100)
    (h2 : used / total * 100 < 16001 / 200) :
    (processPartition ⟨device, mp, fs, .ok ⟨total, used, free⟩⟩).1.status =
      "warning" ∧
    (processPartition ⟨device, mp, fs, .ok ⟨total, used, free⟩⟩).2 =
      [diskWarningMsg device mp (used / total * 100)] ∧
    (processPartition ⟨device, mp, fs, .ok ⟨total, used, free⟩⟩).1.percentUsedOrZero
      = 80 ∧
    diskRecsOf
      [(device, (processPartition ⟨device, mp, fs, .ok ⟨total, used, free⟩⟩).1)]
      = [] ∧
    (generate_recommendations
      { timestamp := "t"
        system_info := []
        disk_health :=
          [(device, (processPartition ⟨device, mp, fs, .ok ⟨total, used, free⟩⟩).1)]
        memory_health := none
        cpu_health := none
        network_health := none
        process_health := none
        issues := [diskWarningMsg device mp (used / total * 100)]
        recommendations := [] }).recommendations = [normalMsg] := by
  have hnot90 : ¬90 < used / total * 100 :=
    not_lt.mpr (le_of_lt (lt_trans h2 (by norm_num)))
  have hround := round2_eq_80 (used / total * 100) h1 h2
  have hpp : processPartition ⟨device, mp, fs, .ok ⟨total, used, free⟩⟩ =
      (.full mp fs (round2 (total / 1024 ^ 3)) (round2 (used / 1024 ^ 3))
        (round2 (free / 1024 ^ 3)) 80 "warning",
       [diskWarningMsg device mp (used / total * 100)]) := by
    simp only [processPartition]
    rw [if_neg h0, if_neg hnot90, if_pos h1, hround]
  have hper : (processPartition ⟨device, mp, fs, .ok ⟨total, used, free⟩⟩).1.percentUsedOrZero
      = 80 := by rw [hpp]; rfl
  have hrec : diskRecsOf
      [(device, (processPartition ⟨device, mp, fs, .ok ⟨total, used, free⟩⟩).1)]
      = [] := by
    simp only [diskRecsOf, List.foldl_cons, List.foldl_nil, diskRecStep, hper]
    simp
  refine ⟨by rw [hpp]; rfl, by rw [hpp], hper, hrec, ?_⟩
  simp only [generate_recommendations, memPercentStored, cpuPercentStored,
    topCpuStored, hrec]
  norm_num

/-- Witness for C10: used 20001 of total 25000 bytes, a raw percent of
80.004. -/
theorem C10_rounded_gap_witness :
    (processPartition ⟨"d0", "/", "ext4", .ok ⟨25000, 20001, 4999⟩⟩).1.status =
      "warning" ∧
    (processPartition ⟨"d0", "/", "ext4", .ok ⟨25000, 20001, 4999⟩⟩).1.percentUsedOrZero
      = 80 ∧
    diskRecsOf
      [("d0", (processPartition ⟨"d0", "/", "ext4", .ok ⟨25000, 20001, 4999⟩⟩).1)]
      = [] := by
  obtain ⟨h1, -, h3, h4, -⟩ :=
    C10_rounded_gap "d0" "/" "ext4" 25000 20001 4999 (by norm_num) (by norm_num)
      (by norm_num)
  exact ⟨h1, h3, h4⟩

end SysDiag
